import Mathlib

/-!
Verification of the Govee LAN protocol core of the musicViz repository
(src/src-tauri/src/govee.rs): the JSON response parser
(`parse_device_response`, `parse_color`), the device registry, the
discovery send phase and the command sender.

JSON values are modelled by an inductive type mirroring `serde_json::Value`.
A JSON number is either an integer (constructor `int`, exact when it lies in
the range serde_json stores as `i64`/`u64`) or a non-integral floating-point
number (constructor `float`; serde_json's `as_i64`/`as_u64` return `None` on
those, and the accessors below never inspect a float's value, so the payload
is omitted).  Integers outside `[-2^63, 2^64)` are stored by serde_json as
`f64`, hence the range checks in `as_i64`/`as_u64`.
-/

inductive Json where
  | null
  | bool (b : Bool)
  | int (i : Int)
  | float
  | str (s : String)
  | arr (elems : List Json)
  | obj (fields : List (String × Json))

/-- `serde_json::Value::get(key)`: field lookup on an object, `None` on every
other value kind. -/
def Json.get (j : Json) (key : String) : Option Json :=
  match j with
  | .obj fields => (fields.find? (fun p => p.1 == key)).map Prod.snd
  | _ => none

/-- `Value::as_str`. -/
def Json.as_str : Json → Option String
  | .str s => some s
  | _ => none

/-- `Value::as_bool`. -/
def Json.as_bool : Json → Option Bool
  | .bool b => some b
  | _ => none

/-- `Value::as_i64`: an integral number in the `i64` range. -/
def Json.as_i64 : Json → Option Int
  | .int i => if -(2 ^ 63) ≤ i ∧ i < 2 ^ 63 then some i else none
  | _ => none

/-- `Value::as_u64`: an integral number in the `u64` range, as a `Nat`. -/
def Json.as_u64 : Json → Option Nat
  | .int i => if 0 ≤ i ∧ i < 2 ^ 64 then some i.toNat else none
  | _ => none

/-- `RGBColor` (govee.rs lines 37-42); `u8` fields become `Nat` kept below
`2^8` by explicit `% 256` at every construction site. -/
structure RGBColor where
  r : Nat
  g : Nat
  b : Nat
deriving DecidableEq, Repr

/-- `DeviceCapabilities` (govee.rs lines 44-56). -/
structure DeviceCapabilities where
  power_control : Bool
  brightness_control : Bool
  color_control : Bool
  color_temperature_control : Bool
  music_mode : Bool
deriving DecidableEq, Repr

/-- `DeviceState` (govee.rs lines 27-35); `brightness : u8` and
`color_temperature : u16` become `Nat` with explicit truncation. -/
structure DeviceState where
  «on» : Bool
  brightness : Nat
  color : RGBColor
  color_temperature : Nat
  mode : String
deriving DecidableEq, Repr

/-- `GoveeDevice` (govee.rs lines 14-25). -/
structure GoveeDevice where
  id : String
  name : String
  model : String
  ip : String
  lan_api_enabled : Bool
  online : Bool
  state : DeviceState
  capabilities : DeviceCapabilities
deriving DecidableEq, Repr

/-- `parse_color` (govee.rs lines 309-319).  Each channel is
`color.get(ch).and_then(as_u64).unwrap_or(255) as u8`; the Rust `as u8`
cast truncates, i.e. takes the value modulo `2^8`. -/
def parse_color (color_value : Option Json) : RGBColor :=
  match color_value with
  | some color =>
      { r := (((color.get "r").bind Json.as_u64).getD 255) % 256
        g := (((color.get "g").bind Json.as_u64).getD 255) % 256
        b := (((color.get "b").bind Json.as_u64).getD 255) % 256 }
  | none => { r := 255, g := 255, b := 255 }

/-- `parse_device_response` (govee.rs lines 198-306).  The second argument is
`src_addr.ip().to_string()`, the only use the function makes of the UDP
source address.  Rust's `?` on `Option` is the `Option` monad's bind; the
`as u8` / `as u16` casts on the `u64` values returned by `as_u64` truncate
modulo `2^8` / `2^16`. -/
def parse_device_response (response : Json) (src_ip : String) : Option GoveeDevice := do
  let msg ← response.get "msg"
  let cmdv ← msg.get "cmd"
  let cmd ← cmdv.as_str
  let data ← msg.get "data"
  match cmd with
  | "scan" =>
      let device_ip := ((data.get "ip").bind Json.as_str).getD src_ip
      let idv ← data.get "device"
      let id ← idv.as_str
      some
        { id := id
          name := ((data.get "deviceName").bind Json.as_str).getD
                    (((data.get "sku").bind Json.as_str).getD "Govee Device")
          model := ((data.get "sku").bind Json.as_str).getD "Unknown"
          ip := device_ip
          lan_api_enabled := true
          online := true
          state :=
            { «on» := false
              brightness := 50
              color := { r := 255, g := 255, b := 255 }
              color_temperature := 5000
              mode := "normal" }
          capabilities :=
            { power_control := true
              brightness_control := true
              color_control := true
              color_temperature_control := true
              music_mode := true } }
  | "devStatus" =>
      let idv ← data.get "device"
      let id ← idv.as_str
      some
        { id := id
          name := ((data.get "deviceName").bind Json.as_str).getD "Unknown Device"
          model := ((data.get "sku").bind Json.as_str).getD "Unknown"
          ip := src_ip
          lan_api_enabled := true
          online := (data.get "onOff").isSome
          state :=
            { «on» := (((data.get "onOff").bind Json.as_i64).getD 0) == 1
              brightness := ((((data.get "brightness").bind Json.as_u64).getD 0)) % 256
              color := parse_color (data.get "color")
              color_temperature :=
                ((((data.get "colorTemInKelvin").bind Json.as_u64).getD 5000)) % 65536
              mode := ((data.get "mode").bind Json.as_str).getD "normal" }
          capabilities :=
            { power_control := true
              brightness_control := true
              color_control := true
              color_temperature_control := (data.get "colorTemInKelvin").isSome
              music_mode := ((data.get "musicMode").bind Json.as_bool).getD false } }
  | _ => none

/-- The `cmd` string of a payload: `response.get("msg")`, then `get("cmd")`,
then `as_str`, exactly the chain at govee.rs lines 199-200. -/
def msgCmd (j : Json) : Option String :=
  (j.get "msg").bind fun m => (m.get "cmd").bind Json.as_str

/-- The `data` value of a payload (govee.rs line 202). -/
def msgData (j : Json) : Option Json :=
  (j.get "msg").bind fun m => m.get "data"

/-- A field of the payload's `data` object. -/
def dataField (j : Json) (key : String) : Option Json :=
  (msgData j).bind fun d => d.get key

/-- The device registry (govee.rs line 73, `HashMap<String, GoveeDevice>`),
modelled as an association list with at most one entry per key
(`std::collections::HashMap` never holds duplicate keys). -/
def Registry : Type := List (String × GoveeDevice)

/-- `state_devices.insert(device.id.clone(), device)` (govee.rs line 174):
`HashMap::insert` replaces the value stored under an existing key and
otherwise adds a new entry. -/
def registryInsert (r : Registry) (d : GoveeDevice) : Registry :=
  match r with
  | [] => [(d.id, d)]
  | p :: rest => if p.1 = d.id then (d.id, d) :: rest else p :: registryInsert rest d

/-- `govee_get_device` (govee.rs lines 369-372): `devices.get(&device_id).cloned()`. -/
def registryGet (r : Registry) (device_id : String) : Option GoveeDevice :=
  (r.find? (fun p => p.1 == device_id)).map Prod.snd

/-- `govee_get_all_devices` (govee.rs lines 376-379): `devices.values().cloned().collect()`. -/
def registryGetAll (r : Registry) : List GoveeDevice :=
  r.map Prod.snd

/-- `govee_clear_devices` (govee.rs lines 383-387): `devices.clear()`. -/
def registryClear (_ : Registry) : Registry := []

/-- Which of the two transmit paths of discovery carried the probe. -/
inductive SendPath where
  | broadcast
  | multicast
deriving DecidableEq, Repr

/-- The send phase of `govee_discover_devices` (govee.rs lines 120-142).
The environment is abstracted into the outcomes of the three fallible
operations the phase performs: `send_to` on `255.255.255.255:<port>`,
parsing `<multicast_group>:<port>` as a socket address, and `send_to` on
that multicast address.  The `match` mirrors the Rust `match` on the
broadcast send result: on `Ok` nothing further is sent; on `Err` the
multicast address is parsed (`?`) and the probe sent there (`?`). -/
def discoverSendPhase (broadcastSend : Except String Unit)
    (multicastAddr : Except String Unit)
    (multicastSend : Except String Unit) : Except String SendPath :=
  match broadcastSend with
  | .ok _ => .ok .broadcast
  | .error _ =>
    match multicastAddr with
    | .error e => .error ("Invalid multicast address: " ++ e)
    | .ok _ =>
      match multicastSend with
      | .ok _ => .ok .multicast
      | .error e => .error ("Failed to send discovery message: " ++ e)

/-- `govee_send_lan_command` (govee.rs lines 322-365) with the socket
operations abstracted into their outcomes: binding the ephemeral socket,
`set_read_timeout` (performed only when `expect_response`), parsing
`<device_ip>:<port>`, `send_to`, and — only when `expect_response` —
`recv_from` followed by `serde_json::from_slice` on the received bytes
(the inner `Except` is that parse). -/
def govee_send_lan_command (bindSocket : Except String Unit)
    (setTimeout : Except String Unit)
    (addrParse : Except String Unit)
    (sendTo : Except String Unit)
    (expect_response : Bool)
    (recvParse : Except String (Except String Json)) : Except String Json :=
  match bindSocket with
  | .error e => .error ("Failed to create socket: " ++ e)
  | .ok _ =>
    match (if expect_response then setTimeout else .ok ()) with
    | .error e => .error ("Failed to set timeout: " ++ e)
    | .ok _ =>
      match addrParse with
      | .error e => .error ("Invalid device address: " ++ e)
      | .ok _ =>
        match sendTo with
        | .error e => .error ("Failed to send command: " ++ e)
        | .ok _ =>
          if expect_response then
            match recvParse with
            | .ok (.ok response) => .ok response
            | .ok (.error e) => .error ("Failed to parse response: " ++ e)
            | .error e => .error ("Failed to receive response: " ++ e)
          else
            .ok (Json.obj [("success", Json.bool true)])

/-- The device the `"scan"` branch of `parse_device_response` builds once
`data.device` has been read as the string `id` (govee.rs lines 217-252). -/
def scanDevice (data : Json) (id src_ip : String) : GoveeDevice :=
  { id := id
    name := ((data.get "deviceName").bind Json.as_str).getD
              (((data.get "sku").bind Json.as_str).getD "Govee Device")
    model := ((data.get "sku").bind Json.as_str).getD "Unknown"
    ip := ((data.get "ip").bind Json.as_str).getD src_ip
    lan_api_enabled := true
    online := true
    state :=
      { «on» := false, brightness := 50, color := { r := 255, g := 255, b := 255 }
        color_temperature := 5000, mode := "normal" }
    capabilities :=
      { power_control := true, brightness_control := true, color_control := true
        color_temperature_control := true, music_mode := true } }

/-- The device the `"devStatus"` branch of `parse_device_response` builds once
`data.device` has been read as the string `id` (govee.rs lines 257-299). -/
def devStatusDevice (data : Json) (id src_ip : String) : GoveeDevice :=
  { id := id
    name := ((data.get "deviceName").bind Json.as_str).getD "Unknown Device"
    model := ((data.get "sku").bind Json.as_str).getD "Unknown"
    ip := src_ip
    lan_api_enabled := true
    online := (data.get "onOff").isSome
    state :=
      { «on» := (((data.get "onOff").bind Json.as_i64).getD 0) == 1
        brightness := ((((data.get "brightness").bind Json.as_u64).getD 0)) % 256
        color := parse_color (data.get "color")
        color_temperature :=
          ((((data.get "colorTemInKelvin").bind Json.as_u64).getD 5000)) % 65536
        mode := ((data.get "mode").bind Json.as_str).getD "normal" }
    capabilities :=
      { power_control := true, brightness_control := true, color_control := true
        color_temperature_control := (data.get "colorTemInKelvin").isSome
        music_mode := ((data.get "musicMode").bind Json.as_bool).getD false } }

/-- A sample `"scan"` payload whose `data.device` field is `idv`. -/
def scanPayload (idv : Json) : Json :=
  Json.obj [("msg", Json.obj [("cmd", Json.str "scan"),
    ("data", Json.obj [("device", idv)])])]

/-- A sample `"devStatus"` payload whose `data` object holds `fields`. -/
def devStatusPayload (fields : List (String × Json)) : Json :=
  Json.obj [("msg", Json.obj [("cmd", Json.str "devStatus"),
    ("data", Json.obj fields)])]

/-- A sample device as the `"scan"` branch would build it. -/
def devA : GoveeDevice := scanDevice (Json.obj []) "AA" "10.0.0.3"

/-- A second sample device with the same id but different fields. -/
def devB : GoveeDevice := devStatusDevice (Json.obj [("device", Json.str "AA")]) "AA" "10.0.0.4"

lemma someBind {α β : Type} (a : α) (f : α → Option β) : ((some a : Option α) >>= f) = f a := rfl

lemma noneBind {α β : Type} (f : α → Option β) : ((none : Option α) >>= f) = none := rfl

lemma Json.as_str_eq_some {v : Json} {s : String} : v.as_str = some s ↔ v = .str s := by
  cases v <;> simp [Json.as_str]

lemma Json.as_str_str (s : String) : (Json.str s).as_str = some s := rfl

lemma msgCmd_inv {j : Json} {c : String} (h : msgCmd j = some c) :
    ∃ m, j.get "msg" = some m ∧ m.get "cmd" = some (Json.str c) := by
  unfold msgCmd at h
  rw [Option.bind_eq_some] at h
  obtain ⟨m, hm, h⟩ := h
  rw [Option.bind_eq_some] at h
  obtain ⟨v, hv, h⟩ := h
  rw [Json.as_str_eq_some] at h
  exact ⟨m, hm, by rw [hv, h]⟩

lemma parse_scan_eq {j m data : Json} {s : String} (ip : String)
    (hm : j.get "msg" = some m) (hc : m.get "cmd" = some (Json.str "scan"))
    (hd : m.get "data" = some data) (hdev : data.get "device" = some (Json.str s)) :
    parse_device_response j ip = some (scanDevice data s ip) := by
  unfold parse_device_response
  rw [hm]
  simp only [someBind, hc, hd, hdev, Json.as_str]
  rfl

lemma parse_devStatus_eq {j m data : Json} {s : String} (ip : String)
    (hm : j.get "msg" = some m) (hc : m.get "cmd" = some (Json.str "devStatus"))
    (hd : m.get "data" = some data) (hdev : data.get "device" = some (Json.str s)) :
    parse_device_response j ip = some (devStatusDevice data s ip) := by
  unfold parse_device_response
  rw [hm]
  simp only [someBind, hc, hd, hdev, Json.as_str]
  rfl

lemma msgData_inv {j dt : Json} (h : msgData j = some dt) :
    ∃ m, j.get "msg" = some m ∧ m.get "data" = some dt := by
  unfold msgData at h
  rw [Option.bind_eq_some] at h
  exact h

lemma dataField_inv {j v : Json} {key : String} (h : dataField j key = some v) :
    ∃ m dt, j.get "msg" = some m ∧ m.get "data" = some dt ∧ dt.get key = some v := by
  unfold dataField at h
  rw [Option.bind_eq_some] at h
  obtain ⟨dt, hdt, hv⟩ := h
  obtain ⟨m, hm, hd⟩ := msgData_inv hdt
  exact ⟨m, dt, hm, hd, hv⟩

/-- C1: every `"scan"` payload whose `msg.data` carries a string `device`
field parses to `Some` device whose `id` equals that field and whose five
capability flags are all true. -/
theorem scan_parse_id_and_caps_C1 (j : Json) (ip s : String)
    (hcmd : msgCmd j = some "scan")
    (hdev : dataField j "device" = some (Json.str s)) :
    ∃ d, parse_device_response j ip = some d ∧ d.id = s ∧
      d.capabilities = ⟨true, true, true, true, true⟩ := by
  obtain ⟨m, hm, hc⟩ := msgCmd_inv hcmd
  obtain ⟨m', dt, hm', hd, hv⟩ := dataField_inv hdev
  rw [hm] at hm'
  obtain rfl : m = m' := Option.some.inj hm'
  exact ⟨scanDevice dt s ip, parse_scan_eq ip hm hc hd hv, rfl, rfl⟩

/-- Witness for C1 at a concrete `"scan"` payload. -/
theorem scan_parse_id_and_caps_C1_witness :
    msgCmd (scanPayload (Json.str "AA:BB:CC")) = some "scan" ∧
    dataField (scanPayload (Json.str "AA:BB:CC")) "device" = some (Json.str "AA:BB:CC") ∧
    ∃ d, parse_device_response (scanPayload (Json.str "AA:BB:CC")) "10.0.0.7" = some d ∧
      d.id = "AA:BB:CC" ∧ d.capabilities = ⟨true, true, true, true, true⟩ :=
  ⟨rfl, rfl, scan_parse_id_and_caps_C1 (scanPayload (Json.str "AA:BB:CC")) "10.0.0.7"
    "AA:BB:CC" rfl rfl⟩

/-- C2: a payload missing the `msg` object, or whose `msg` is missing the
`cmd` or `data` field, or whose `cmd` string is neither `"scan"` nor
`"devStatus"`, parses to `None` (`parse_device_response` has no error
outcome at all: its codomain is an `Option`). -/
theorem parse_unrecognized_none_C2 (j : Json) (ip : String)
    (h : j.get "msg" = none
      ∨ (∃ m, j.get "msg" = some m ∧ (m.get "cmd" = none ∨ m.get "data" = none))
      ∨ (∃ c, msgCmd j = some c ∧ c ≠ "scan" ∧ c ≠ "devStatus")) :
    parse_device_response j ip = none := by
  rcases h with h | ⟨m, hm, hcd | hdt⟩ | ⟨c, hc, h1, h2⟩
  · unfold parse_device_response
    rw [h]
    rfl
  · unfold parse_device_response
    rw [hm]
    simp only [someBind, hcd, noneBind]
  · unfold parse_device_response
    rw [hm]
    simp only [someBind]
    rcases h1 : m.get "cmd" with _ | v
    · simp only [noneBind]
    · simp only [someBind]
      rcases h2 : v.as_str with _ | c
      · simp only [noneBind]
      · simp only [someBind, hdt, noneBind]
  · obtain ⟨m, hm, hcmd⟩ := msgCmd_inv hc
    unfold parse_device_response
    rw [hm]
    simp only [someBind, hcmd, Json.as_str]
    rcases hdt : m.get "data" with _ | dt
    · rfl
    · rfl

/-- Witness for C2 at three concrete payloads: no `msg`, no `data`, and an
unrecognized `cmd`. -/
theorem parse_unrecognized_none_C2_witness :
    ((Json.obj [("x", Json.null)]).get "msg" = none ∧
      parse_device_response (Json.obj [("x", Json.null)]) "10.0.0.7" = none) ∧
    parse_device_response
      (Json.obj [("msg", Json.obj [("cmd", Json.str "scan")])]) "10.0.0.7" = none ∧
    parse_device_response
      (Json.obj [("msg", Json.obj [("cmd", Json.str "ratePut"),
        ("data", Json.obj [("device", Json.str "AA")])])]) "10.0.0.7" = none :=
  ⟨⟨rfl, parse_unrecognized_none_C2 _ "10.0.0.7" (Or.inl rfl)⟩,
   parse_unrecognized_none_C2 _ "10.0.0.7"
     (Or.inr (Or.inl ⟨Json.obj [("cmd", Json.str "scan")], rfl, Or.inr rfl⟩)),
   parse_unrecognized_none_C2 _ "10.0.0.7"
     (Or.inr (Or.inr ⟨"ratePut", rfl, by decide, by decide⟩))⟩

lemma dataField_eq {j m dt : Json} (key : String)
    (hm : j.get "msg" = some m) (hd : m.get "data" = some dt) :
    dataField j key = dt.get key := by
  unfold dataField msgData
  rw [hm]
  show ((m.get "data").bind fun d => d.get key) = dt.get key
  rw [hd]
  rfl

lemma parse_devStatus_inv {j : Json} {ip : String} {d : GoveeDevice}
    (hcmd : msgCmd j = some "devStatus")
    (hp : parse_device_response j ip = some d) :
    ∃ m dt s, j.get "msg" = some m ∧ m.get "cmd" = some (Json.str "devStatus") ∧
      m.get "data" = some dt ∧ dt.get "device" = some (Json.str s) ∧
      d = devStatusDevice dt s ip := by
  obtain ⟨m, hm, hc⟩ := msgCmd_inv hcmd
  unfold parse_device_response at hp
  rw [hm] at hp
  simp only [someBind, hc, Json.as_str_str] at hp
  rcases hd : m.get "data" with _ | dt
  · rw [hd] at hp
    exact absurd hp (by simp [noneBind])
  · rw [hd] at hp
    simp only [someBind] at hp
    rcases hdev : dt.get "device" with _ | idv
    · rw [hdev] at hp
      exact absurd hp (by simp [noneBind])
    · rw [hdev] at hp
      simp only [someBind] at hp
      rcases hs : idv.as_str with _ | s
      · rw [hs] at hp
        exact absurd hp (by simp [noneBind])
      · rw [hs] at hp
        simp only [someBind, Option.some.injEq] at hp
        rw [Json.as_str_eq_some] at hs
        exact ⟨m, dt, s, hm, hc, hd, by rw [hdev, hs], hp.symm⟩

lemma parse_scan_inv {j : Json} {ip : String} {d : GoveeDevice}
    (hcmd : msgCmd j = some "scan")
    (hp : parse_device_response j ip = some d) :
    ∃ m dt s, j.get "msg" = some m ∧ m.get "cmd" = some (Json.str "scan") ∧
      m.get "data" = some dt ∧ dt.get "device" = some (Json.str s) ∧
      d = scanDevice dt s ip := by
  obtain ⟨m, hm, hc⟩ := msgCmd_inv hcmd
  unfold parse_device_response at hp
  rw [hm] at hp
  simp only [someBind, hc, Json.as_str_str] at hp
  rcases hd : m.get "data" with _ | dt
  · rw [hd] at hp
    exact absurd hp (by simp [noneBind])
  · rw [hd] at hp
    simp only [someBind] at hp
    rcases hdev : dt.get "device" with _ | idv
    · rw [hdev] at hp
      exact absurd hp (by simp [noneBind])
    · rw [hdev] at hp
      simp only [someBind] at hp
      rcases hs : idv.as_str with _ | s
      · rw [hs] at hp
        exact absurd hp (by simp [noneBind])
      · rw [hs] at hp
        simp only [someBind, Option.some.injEq] at hp
        rw [Json.as_str_eq_some] at hs
        exact ⟨m, dt, s, hm, hc, hd, by rw [hdev, hs], hp.symm⟩

lemma onOff_as_i64_iff (o : Option Json) :
    ((((o.bind Json.as_i64).getD 0) == 1) = true) ↔ o = some (Json.int 1) := by
  rcases o with _ | v
  · simp
  · rcases v with _ | b | i | _ | s | xs | fs
    case int =>
      show ((Json.as_i64 (Json.int i)).getD 0 == 1) = true ↔ _
      simp only [Json.as_i64]
      by_cases h : -(2 ^ 63) ≤ i ∧ i < 2 ^ 63
      · rw [if_pos h]
        simp only [Option.getD_some, beq_iff_eq, Option.some.injEq, Json.int.injEq]
      · rw [if_neg h]
        simp only [Option.getD_none, Option.some.injEq, Json.int.injEq]
        constructor
        · intro hb
          exact absurd hb (by decide)
        · rintro rfl
          exact absurd ⟨by norm_num, by norm_num⟩ h
    all_goals simp [Json.as_i64]

/-- C3: a `"devStatus"` payload that parses to `Some(device)` has
`state.on = true` exactly when `data.onOff` is the integer `1`; every other
value (boolean, non-integral number, string) and absence give `false`. -/
theorem devStatus_on_iff_C3 (j : Json) (ip : String) (d : GoveeDevice)
    (hcmd : msgCmd j = some "devStatus")
    (hp : parse_device_response j ip = some d) :
    (d.state.«on» = true ↔ dataField j "onOff" = some (Json.int 1)) := by
  obtain ⟨m, dt, s, hm, hc, hd, hdev, rfl⟩ := parse_devStatus_inv hcmd hp
  rw [dataField_eq "onOff" hm hd]
  exact onOff_as_i64_iff (dt.get "onOff")

/-- Witness for C3: `onOff = 1` gives `on = true`, and `onOff = 0` (present
but not `1`) gives `on = false`, at concrete payloads. -/
theorem devStatus_on_iff_C3_witness :
    ((devStatusDevice (Json.obj [("device", Json.str "AA"), ("onOff", Json.int 1)])
        "AA" "1.1.1.1").state.«on» = true ↔
      dataField (devStatusPayload [("device", Json.str "AA"), ("onOff", Json.int 1)])
        "onOff" = some (Json.int 1)) ∧
    ((devStatusDevice (Json.obj [("device", Json.str "AA"), ("onOff", Json.int 0)])
        "AA" "1.1.1.1").state.«on» = true ↔
      dataField (devStatusPayload [("device", Json.str "AA"), ("onOff", Json.int 0)])
        "onOff" = some (Json.int 1)) :=
  ⟨devStatus_on_iff_C3 (devStatusPayload [("device", Json.str "AA"), ("onOff", Json.int 1)])
      "1.1.1.1" _ rfl rfl,
   devStatus_on_iff_C3 (devStatusPayload [("device", Json.str "AA"), ("onOff", Json.int 0)])
      "1.1.1.1" _ rfl rfl⟩

/-- C4: a `"devStatus"` payload that parses to `Some(device)` has
`online = true` exactly when the `onOff` field is present in `data`,
whatever its value. -/
theorem devStatus_online_iff_C4 (j : Json) (ip : String) (d : GoveeDevice)
    (hcmd : msgCmd j = some "devStatus")
    (hp : parse_device_response j ip = some d) :
    (d.online = true ↔ (dataField j "onOff").isSome = true) := by
  obtain ⟨m, dt, s, hm, hc, hd, hdev, rfl⟩ := parse_devStatus_inv hcmd hp
  rw [dataField_eq "onOff" hm hd]
  exact Iff.rfl

/-- Witness for C4: with `onOff = 0` the field is present, so the parsed
device is online even though it is off. -/
theorem devStatus_online_iff_C4_witness :
    ((devStatusDevice (Json.obj [("device", Json.str "AA"), ("onOff", Json.int 0)])
        "AA" "1.1.1.1").online = true ↔
      (dataField (devStatusPayload [("device", Json.str "AA"), ("onOff", Json.int 0)])
        "onOff").isSome = true) ∧
    (devStatusDevice (Json.obj [("device", Json.str "AA"), ("onOff", Json.int 0)])
        "AA" "1.1.1.1").online = true :=
  ⟨devStatus_online_iff_C4 (devStatusPayload [("device", Json.str "AA"), ("onOff", Json.int 0)])
      "1.1.1.1" _ rfl rfl, rfl⟩

/-- C10: in both the `"scan"` and the `"devStatus"` branch, a `data.device`
field that is present but not a JSON string makes `parse_device_response`
return `None`, exactly as absence does. -/
theorem parse_device_nonstring_none_C10 (j v : Json) (ip : String)
    (hcmd : msgCmd j = some "scan" ∨ msgCmd j = some "devStatus")
    (hdev : dataField j "device" = some v)
    (hns : v.as_str = none) :
    parse_device_response j ip = none := by
  obtain ⟨m, dt, hm, hd, hv⟩ := dataField_inv hdev
  rcases hcmd with hcmd | hcmd <;>
    (obtain ⟨m', hm', hc⟩ := msgCmd_inv hcmd
     rw [hm] at hm'
     obtain rfl := Option.some.inj hm'
     unfold parse_device_response
     rw [hm]
     simp only [someBind, hc, Json.as_str_str, hd, hv, hns, noneBind])

/-- Witness for C10: `device` present as the number `7` in a `"scan"`
payload and as a boolean in a `"devStatus"` payload, both yielding `None`. -/
theorem parse_device_nonstring_none_C10_witness :
    parse_device_response (scanPayload (Json.int 7)) "10.0.0.7" = none ∧
    parse_device_response (devStatusPayload [("device", Json.bool true)]) "10.0.0.7" = none :=
  ⟨parse_device_nonstring_none_C10 (scanPayload (Json.int 7)) (Json.int 7) "10.0.0.7"
      (Or.inl rfl) rfl rfl,
   parse_device_nonstring_none_C10 (devStatusPayload [("device", Json.bool true)])
      (Json.bool true) "10.0.0.7" (Or.inr rfl) rfl rfl⟩

/-- C5: `parse_color` maps `{r:10,g:20,b:30}` to exactly `(10,20,30)`; a
missing `color` value gives `(255,255,255)`; each of `r`, `g`, `b` defaults
to `255` individually when that sub-field is absent; and the `"devStatus"`
branch feeds `data.color` into `parse_color` to obtain `state.color`. -/
theorem parse_color_C5 :
    parse_color (some (Json.obj [("r", Json.int 10), ("g", Json.int 20), ("b", Json.int 30)]))
      = { r := 10, g := 20, b := 30 } ∧
    parse_color none = { r := 255, g := 255, b := 255 } ∧
    (∀ c : Json, (c.get "r" = none → (parse_color (some c)).r = 255) ∧
      (c.get "g" = none → (parse_color (some c)).g = 255) ∧
      (c.get "b" = none → (parse_color (some c)).b = 255)) ∧
    (∀ (j : Json) (ip : String) (d : GoveeDevice), msgCmd j = some "devStatus" →
      parse_device_response j ip = some d →
      d.state.color = parse_color (dataField j "color")) := by
  refine ⟨by rfl, by rfl, fun c => ⟨?_, ?_, ?_⟩, ?_⟩
  · intro h
    simp [parse_color, h]
  · intro h
    simp [parse_color, h]
  · intro h
    simp [parse_color, h]
  · intro j ip d hcmd hp
    obtain ⟨m, dt, s, hm, hc, hd, hdev, rfl⟩ := parse_devStatus_inv hcmd hp
    rw [dataField_eq "color" hm hd]
    rfl

/-- Witness for C5: the sub-field default applied to a color object missing
`r`, and the `devStatus` wiring at a concrete payload. -/
theorem parse_color_C5_witness :
    (Json.obj [("g", Json.int 5)]).get "r" = none ∧
    (parse_color (some (Json.obj [("g", Json.int 5)]))).r = 255 ∧
    (devStatusDevice (Json.obj [("device", Json.str "AA"),
        ("color", Json.obj [("r", Json.int 10), ("g", Json.int 20), ("b", Json.int 30)])])
        "AA" "1.1.1.1").state.color
      = parse_color (dataField (devStatusPayload [("device", Json.str "AA"),
          ("color", Json.obj [("r", Json.int 10), ("g", Json.int 20), ("b", Json.int 30)])])
          "color") :=
  ⟨rfl, (parse_color_C5.2.2.1 (Json.obj [("g", Json.int 5)])).1 rfl,
   parse_color_C5.2.2.2 (devStatusPayload [("device", Json.str "AA"),
       ("color", Json.obj [("r", Json.int 10), ("g", Json.int 20), ("b", Json.int 30)])])
     "1.1.1.1" _ rfl rfl⟩

lemma as_u64_int {i : Int} (h0 : 0 ≤ i) (h64 : i < 2 ^ 64) :
    Json.as_u64 (Json.int i) = some i.toNat := by
  simp only [Json.as_u64]
  rw [if_pos ⟨h0, h64⟩]

/-- C6: in the `"devStatus"` branch, `state.brightness` is `data.brightness`
taken modulo `2^8` when that field is a non-negative integer (necessarily
below `2^64`, the largest integer serde_json represents exactly) and `0`
when the field is absent or not such an integer; `state.color_temperature`
is likewise `data.colorTemInKelvin` modulo `2^16`, defaulting to `5000` when
absent; and no numeric field value can make the parse fail: any payload with
`cmd = "devStatus"` and a string `data.device` parses to `Some`. -/
theorem devStatus_numeric_C6 :
    (∀ (j : Json) (ip : String) (d : GoveeDevice), msgCmd j = some "devStatus" →
      parse_device_response j ip = some d →
      (∀ v : Int, dataField j "brightness" = some (Json.int v) → 0 ≤ v → v < 2 ^ 64 →
        d.state.brightness = v.toNat % 2 ^ 8) ∧
      ((dataField j "brightness").bind Json.as_u64 = none → d.state.brightness = 0) ∧
      (∀ v : Int, dataField j "colorTemInKelvin" = some (Json.int v) → 0 ≤ v → v < 2 ^ 64 →
        d.state.color_temperature = v.toNat % 2 ^ 16) ∧
      (dataField j "colorTemInKelvin" = none → d.state.color_temperature = 5000)) ∧
    (∀ (j m dt : Json) (ip s : String), j.get "msg" = some m →
      m.get "cmd" = some (Json.str "devStatus") → m.get "data" = some dt →
      dt.get "device" = some (Json.str s) →
      (parse_device_response j ip).isSome = true) := by
  constructor
  · intro j ip d hcmd hp
    obtain ⟨m, dt, s, hm, hc, hd, hdev, rfl⟩ := parse_devStatus_inv hcmd hp
    refine ⟨?_, ?_, ?_, ?_⟩
    · intro v hv h0 h64
      show (((dt.get "brightness").bind Json.as_u64).getD 0) % 256 = v.toNat % 2 ^ 8
      rw [dataField_eq "brightness" hm hd] at hv
      rw [hv]
      show ((Json.as_u64 (Json.int v)).getD 0) % 256 = v.toNat % 2 ^ 8
      rw [as_u64_int h0 h64]
      rfl
    · intro hn
      show (((dt.get "brightness").bind Json.as_u64).getD 0) % 256 = 0
      rw [dataField_eq "brightness" hm hd] at hn
      rw [hn]
      rfl
    · intro v hv h0 h64
      show (((dt.get "colorTemInKelvin").bind Json.as_u64).getD 5000) % 65536
        = v.toNat % 2 ^ 16
      rw [dataField_eq "colorTemInKelvin" hm hd] at hv
      rw [hv]
      show ((Json.as_u64 (Json.int v)).getD 5000) % 65536 = v.toNat % 2 ^ 16
      rw [as_u64_int h0 h64]
      rfl
    · intro hn
      show (((dt.get "colorTemInKelvin").bind Json.as_u64).getD 5000) % 65536 = 5000
      rw [dataField_eq "colorTemInKelvin" hm hd] at hn
      rw [hn]
      rfl
  · intro j m dt ip s hm hc hd hdev
    rw [parse_devStatus_eq ip hm hc hd hdev]
    rfl

/-- Witness for C6: `brightness = 300` truncates to `44 = 300 % 256`,
`colorTemInKelvin = 70000` truncates to `4464 = 70000 % 65536`, a boolean
`brightness` degrades to `0`, an absent `colorTemInKelvin` defaults to
`5000`, and none of these payloads fails to parse. -/
theorem devStatus_numeric_C6_witness :
    ((devStatusDevice (Json.obj [("device", Json.str "AA"), ("brightness", Json.int 300),
        ("colorTemInKelvin", Json.int 70000)]) "AA" "1.1.1.1").state.brightness
      = (300 : Int).toNat % 2 ^ 8 ∧
     (devStatusDevice (Json.obj [("device", Json.str "AA"), ("brightness", Json.int 300),
        ("colorTemInKelvin", Json.int 70000)]) "AA" "1.1.1.1").state.color_temperature
      = (70000 : Int).toNat % 2 ^ 16) ∧
    ((devStatusDevice (Json.obj [("device", Json.str "AA"), ("brightness", Json.bool true)])
        "AA" "1.1.1.1").state.brightness = 0 ∧
     (devStatusDevice (Json.obj [("device", Json.str "AA"), ("brightness", Json.bool true)])
        "AA" "1.1.1.1").state.color_temperature = 5000) ∧
    (parse_device_response (devStatusPayload [("device", Json.str "AA"),
        ("brightness", Json.int 300), ("colorTemInKelvin", Json.int 70000)]) "1.1.1.1").isSome
      = true := by
  refine ⟨⟨?_, ?_⟩, ⟨?_, ?_⟩, ?_⟩
  · exact (devStatus_numeric_C6.1 (devStatusPayload [("device", Json.str "AA"),
      ("brightness", Json.int 300), ("colorTemInKelvin", Json.int 70000)]) "1.1.1.1" _
      rfl rfl).1 300 rfl (by norm_num) (by norm_num)
  · exact (devStatus_numeric_C6.1 (devStatusPayload [("device", Json.str "AA"),
      ("brightness", Json.int 300), ("colorTemInKelvin", Json.int 70000)]) "1.1.1.1" _
      rfl rfl).2.2.1 70000 rfl (by norm_num) (by norm_num)
  · exact (devStatus_numeric_C6.1 (devStatusPayload [("device", Json.str "AA"),
      ("brightness", Json.bool true)]) "1.1.1.1" _ rfl rfl).2.1 rfl
  · exact (devStatus_numeric_C6.1 (devStatusPayload [("device", Json.str "AA"),
      ("brightness", Json.bool true)]) "1.1.1.1" _ rfl rfl).2.2.2 rfl
  · exact devStatus_numeric_C6.2 (devStatusPayload [("device", Json.str "AA"),
      ("brightness", Json.int 300), ("colorTemInKelvin", Json.int 70000)])
      (Json.obj [("cmd", Json.str "devStatus"), ("data", Json.obj [("device", Json.str "AA"),
        ("brightness", Json.int 300), ("colorTemInKelvin", Json.int 70000)])])
      (Json.obj [("device", Json.str "AA"), ("brightness", Json.int 300),
        ("colorTemInKelvin", Json.int 70000)]) "1.1.1.1" "AA" rfl rfl rfl rfl

lemma filter_no_key {r : List (String × GoveeDevice)} {k : String}
    (h : k ∉ r.map Prod.fst) : r.filter (fun p => p.1 == k) = [] := by
  induction r with
  | nil => rfl
  | cons p rest ih =>
      simp only [List.map_cons, List.mem_cons] at h
      push_neg at h
      have hp : ¬p.1 = k := fun hk => h.1 hk.symm
      simp [List.filter_cons, hp, ih h.2]

/-- C7: registry upsert is idempotent (inserting the same device twice gives
the same registry as inserting it once), and on a registry with unique keys
inserting `d2` leaves exactly one entry under `d2.id`, equal to `d2` in full
— no merge with a prior entry. -/
theorem registry_upsert_C7 :
    (∀ (r : Registry) (d : GoveeDevice),
      registryInsert (registryInsert r d) d = registryInsert r d) ∧
    (∀ (r : Registry) (d2 : GoveeDevice), (r.map Prod.fst).Nodup →
      (registryInsert r d2).filter (fun p => p.1 == d2.id) = [(d2.id, d2)]) := by
  constructor
  · intro r d
    induction r with
    | nil => simp [registryInsert]
    | cons p rest ih =>
        by_cases h : p.1 = d.id
        · simp [registryInsert, h]
        · simp [registryInsert, h, ih]
  · intro r d2
    induction r with
    | nil =>
        intro _
        simp [registryInsert]
    | cons p rest ih =>
        intro hnd
        simp only [List.map_cons, List.nodup_cons] at hnd
        by_cases h : p.1 = d2.id
        · simp only [registryInsert, if_pos h]
          rw [List.filter_cons]
          simp only [beq_self_eq_true, if_pos]
          rw [filter_no_key (h ▸ hnd.1)]
        · simp only [registryInsert, if_neg h]
          rw [List.filter_cons]
          simp only [show (p.1 == d2.id) = false by simp [h]]
          exact ih hnd.2

/-- Witness for C7: double insertion of `devA` into the empty registry, and
replacement of `devA` by `devB` (same id `"AA"`, different fields). -/
theorem registry_upsert_C7_witness :
    registryInsert (registryInsert [] devA) devA = registryInsert [] devA ∧
    (([("AA", devA)].map Prod.fst).Nodup ∧
      (registryInsert [("AA", devA)] devB).filter (fun p => p.1 == devB.id)
        = [(devB.id, devB)]) :=
  ⟨registry_upsert_C7.1 [] devA,
   by simp, registry_upsert_C7.2 [("AA", devA)] devB (by simp)⟩

/-- C8: the discovery send phase tries the limited broadcast address first
and falls back to the multicast group only when that send fails; it errors
exactly when the broadcast send fails and additionally the multicast address
fails to parse or the multicast send fails; in every non-failing run exactly
one of the two paths carried the probe. -/
theorem discover_send_fallback_C8 (b a m : Except String Unit) :
    ((discoverSendPhase b a m).isOk = false ↔
      b.isOk = false ∧ (a.isOk = false ∨ m.isOk = false)) ∧
    (discoverSendPhase b a m = .ok .broadcast ↔ b.isOk = true) ∧
    (discoverSendPhase b a m = .ok .multicast ↔
      b.isOk = false ∧ a.isOk = true ∧ m.isOk = true) := by
  rcases b with eb | ub <;> rcases a with ea | ua <;> rcases m with em | um <;>
    simp [discoverSendPhase, Except.isOk, Except.toBool]

/-- Witness for C8: a failing broadcast send with a good multicast path takes
the multicast path; a successful broadcast send takes the broadcast path. -/
theorem discover_send_fallback_C8_witness :
    discoverSendPhase (Except.error "network down") (Except.ok ()) (Except.ok ())
      = Except.ok SendPath.multicast ∧
    discoverSendPhase (Except.ok ()) (Except.error "bad") (Except.error "bad")
      = Except.ok SendPath.broadcast :=
  ⟨((discover_send_fallback_C8 (Except.error "network down") (Except.ok ())
      (Except.ok ())).2.2).mpr ⟨rfl, rfl, rfl⟩,
   ((discover_send_fallback_C8 (Except.ok ()) (Except.error "bad")
      (Except.error "bad")).2.1).mpr rfl⟩

/-- C9: when binding the socket, parsing the address and sending all succeed
and no response is expected, `govee_send_lan_command` returns the generic
acknowledgement `{"success": true}`, whatever the outcome of the (never
performed) timeout configuration and receive would have been. -/
theorem send_command_no_response_C9
    (bindSocket setTimeout addrParse sendTo : Except String Unit)
    (recvParse : Except String (Except String Json))
    (hb : bindSocket = .ok ()) (ha : addrParse = .ok ()) (hs : sendTo = .ok ()) :
    govee_send_lan_command bindSocket setTimeout addrParse sendTo false recvParse
      = .ok (Json.obj [("success", Json.bool true)]) := by
  subst hb ha hs
  rcases setTimeout with e | u
  · rfl
  · rfl

/-- Witness for C9: even with a failing timeout configuration and a receive
that would have errored, the call acknowledges success. -/
theorem send_command_no_response_C9_witness :
    govee_send_lan_command (Except.ok ()) (Except.error "cannot set timeout")
      (Except.ok ()) (Except.ok ()) false (Except.error "would block")
      = Except.ok (Json.obj [("success", Json.bool true)]) :=
  send_command_no_response_C9 (Except.ok ()) (Except.error "cannot set timeout")
    (Except.ok ()) (Except.ok ()) (Except.error "would block") rfl rfl rfl

